import Mathlib

/-!
Verification development for the Univid-Downloader repository.

The definitions below are a shallow embedding of the TypeScript sources:
  - src/src/app/api/analyze/route.ts   (analyze endpoint)
  - src/src/app/api/download/route.ts  (download endpoint)
  - src/src/lib/store.ts               (client-side store and classifier)
  - src/src/components/url-input.tsx   (client analyze flow)
  - src/src/components/video-card.tsx  (client download flow)

Strings are modelled as Lean `String`; the regular-expression tests of the
sources are modelled as executable substring/scan functions over the list of
character codes (`Nat`), with the case-insensitive `/i` flag modelled by
ASCII lower-casing of the scanned text (the patterns themselves are
lower-case ASCII).  Network effects (fetch) are modelled as oracle values
passed to the functions, and the list of dispatched extractors is returned
alongside each endpoint's response so that "no extractor / no network call"
claims are observable.
-/

set_option autoImplicit false

/-- Character codes of a string. -/
def toCodes (s : String) : List Nat := s.toList.map Char.toNat

/-- ASCII lower-casing of one character code (models the `/i` regex flag). -/
def lowerCode (n : Nat) : Nat := if 65 ≤ n ∧ n ≤ 90 then n + 32 else n

/-- Lower-cased character codes of a string. -/
def lowerCodes (s : String) : List Nat := (toCodes s).map lowerCode

/-- Does `l` start with `p`? (building block of the substring tests). -/
def startsWithL {α : Type} [DecidableEq α] : List α → List α → Bool
  | _, [] => true
  | [], _ :: _ => false
  | a :: l, b :: p => if a = b then startsWithL l p else false

/-- Does `pat` occur as a contiguous substring of `hay`?  This is the
meaning of `/pat/.test(hay)` for a regex `pat` without metacharacters. -/
def containsSub {α : Type} [DecidableEq α] : List α → List α → Bool
  | [], p => startsWithL [] p
  | a :: l, p => startsWithL (a :: l) p || containsSub l p

/-- Server-side YouTube test, from `/(?:youtube\.com|youtu\.be)/i`
(analyze/route.ts line 6, download/route.ts line 6). -/
def ytMatch (h : List Nat) : Bool :=
  containsSub h (toCodes "youtube.com") || containsSub h (toCodes "youtu.be")

/-- Server-side TikTok test, from `/tiktok\.com/i` (route.ts line 7). -/
def tkMatch (h : List Nat) : Bool := containsSub h (toCodes "tiktok.com")

/-- Server-side Instagram test, from `/instagram\.com/i` (route.ts line 8). -/
def igMatch (h : List Nat) : Bool := containsSub h (toCodes "instagram.com")

/-- Server-side Facebook test, from `/(?:facebook\.com|fb\.watch)/i`
(route.ts line 9). -/
def fbMatch (h : List Nat) : Bool :=
  containsSub h (toCodes "facebook.com") || containsSub h (toCodes "fb.watch")

/-- The if-cascade of `detectPlatform` (analyze/route.ts lines 5-11 and
download/route.ts lines 5-11), abstracted over the four boolean tests. -/
def classifyBools (a b c d : Bool) : String :=
  if a then "youtube"
  else if b then "tiktok"
  else if c then "instagram"
  else if d then "facebook"
  else "unknown"

/-- `detectPlatform` of both API routes (analyze/route.ts lines 5-11,
download/route.ts lines 5-11): first matching rule wins, matching is
case-insensitive substring containment. -/
def detectPlatform (url : String) : String :=
  classifyBools (ytMatch (lowerCodes url)) (tkMatch (lowerCodes url))
    (igMatch (lowerCodes url)) (fbMatch (lowerCodes url))

/-- The `Platform` union type of src/src/lib/store.ts line 3. -/
inductive Platform where
  | youtube
  | tiktok
  | instagram
  | facebook
  | unknown
deriving DecidableEq

/-- Character class `[\w.-]` of the client TikTok regex, on lower-cased
codes (the hay is lower-cased first, so `a-z` covers `A-Za-z` under `/i`). -/
def isWordDotDash (c : Nat) : Bool :=
  (97 ≤ c && c ≤ 122) || (48 ≤ c && c ≤ 57) || c == 95 || c == 46 || c == 45

/-- Regex `.` (anything but a line terminator). -/
def isDotChar (c : Nat) : Bool :=
  !(c == 10 || c == 13 || c == 8232 || c == 8233)

/-- After `tiktok.com/@` the client TikTok regex requires `[\w.-]+\/video\/`:
one or more class characters followed by `/video/`. -/
def tkRun : List Nat → Bool
  | [] => false
  | c :: t => isWordDotDash c && (startsWithL t (toCodes "/video/") || tkRun t)

/-- Scan for an occurrence of `tiktok\.com\/@[\w.-]+\/video\/`
(store.ts line 79, first alternative). -/
def tkScan : List Nat → Bool
  | [] => false
  | a :: t =>
    (startsWithL (a :: t) (toCodes "tiktok.com/@")
      && tkRun (List.drop (toCodes "tiktok.com/@").length (a :: t)))
    || tkScan t

/-- After `facebook.com/` the client Facebook regex requires `.*\/videos\/`:
any gap of non-line-terminator characters followed by `/videos/`. -/
def fbGap : List Nat → Bool
  | [] => false
  | c :: t => startsWithL (c :: t) (toCodes "/videos/") || (isDotChar c && fbGap t)

/-- Scan for an occurrence of `facebook\.com\/.*\/videos\/`
(store.ts line 81, first alternative). -/
def fbScan : List Nat → Bool
  | [] => false
  | a :: t =>
    (startsWithL (a :: t) (toCodes "facebook.com/")
      && fbGap (List.drop (toCodes "facebook.com/").length (a :: t)))
    || fbScan t

/-- Client YouTube test `/(?:youtube\.com\/(?:watch\?v=|shorts\/)|youtu\.be\/)/i`
(store.ts line 78). -/
def clientYtTest (h : List Nat) : Bool :=
  containsSub h (toCodes "youtube.com/watch?v=")
  || containsSub h (toCodes "youtube.com/shorts/")
  || containsSub h (toCodes "youtu.be/")

/-- Client TikTok test `/(?:tiktok\.com\/@[\w.-]+\/video\/|vm\.tiktok\.com\/)/i`
(store.ts line 79). -/
def clientTkTest (h : List Nat) : Bool :=
  tkScan h || containsSub h (toCodes "vm.tiktok.com/")

/-- Client Instagram test `/(?:instagram\.com\/(?:p|reel|reels)\/)/i`
(store.ts line 80). -/
def clientIgTest (h : List Nat) : Bool :=
  containsSub h (toCodes "instagram.com/p/")
  || containsSub h (toCodes "instagram.com/reel/")
  || containsSub h (toCodes "instagram.com/reels/")

/-- Client Facebook test `/(?:facebook\.com\/.*\/videos\/|fb\.watch\/)/i`
(store.ts line 81). -/
def clientFbTest (h : List Nat) : Bool :=
  fbScan h || containsSub h (toCodes "fb.watch/")

/-- Client-side `detectPlatform` (store.ts lines 76-92): the patterns are
tried in insertion order youtube, tiktok, instagram, facebook; the
`unknown` entry is skipped by the loop and is the fall-through result. -/
def clientDetectPlatform (url : String) : Platform :=
  if clientYtTest (lowerCodes url) then .youtube
  else if clientTkTest (lowerCodes url) then .tiktok
  else if clientIgTest (lowerCodes url) then .instagram
  else if clientFbTest (lowerCodes url) then .facebook
  else .unknown

/-- Capture group `([^&\n?#]+)` of the YouTube id patterns
(analyze/route.ts lines 16-17): the maximal run of characters other than
`&`, newline, `?`, `#`; the match fails when the run is empty. -/
def captureId (l : List Char) : Option (List Char) :=
  match l.takeWhile (fun c => !(c == '&' || c == '\n' || c == '?' || c == '#')) with
  | [] => none
  | r => some r

/-- Try the pattern alternatives in order at the current position. -/
def tryAlts : List (List Char) → List Char → Option (List Char)
  | [], _ => none
  | a :: rest, s =>
    if startsWithL s a then
      match captureId (s.drop a.length) with
      | some r => some r
      | none => tryAlts rest s
    else tryAlts rest s

/-- Leftmost-first regex scan: at each position, the alternatives are tried
in order; the first position with a successful alternative wins. -/
def scanYt (alts : List (List Char)) : List Char → Option (List Char)
  | [] => none
  | a :: t =>
    match tryAlts alts (a :: t) with
    | some r => some r
    | none => scanYt alts t

/-- Alternatives of the first YouTube id pattern (analyze/route.ts line 16);
these are case-sensitive (no `/i` flag). -/
def ytIdAlts1 : List (List Char) :=
  [("youtube.com/watch?v=").toList, ("youtu.be/").toList,
   ("youtube.com/embed/").toList, ("youtube.com/v/").toList]

/-- Alternative of the second YouTube id pattern (analyze/route.ts line 17). -/
def ytIdAlts2 : List (List Char) := [("youtube.com/shorts/").toList]

/-- `extractYouTubeId` (analyze/route.ts lines 14-24): the first pattern is
tried on the whole URL, then the `shorts` pattern; the captured id (match[1])
is returned. -/
def extractYouTubeId (url : String) : Option String :=
  match scanYt ytIdAlts1 url.toList with
  | some r => some (String.mk r)
  | none =>
    match scanYt ytIdAlts2 url.toList with
    | some r => some (String.mk r)
    | none => none

/-- JavaScript `x || d` for an optional string field `x` (absent or empty
string is falsy and yields the default). -/
def jsDefault (o : Option String) (d : String) : String :=
  match o with
  | some t => if t = "" then d else t
  | none => d

/-- oEmbed response body as used by analyzeYouTube (only `title` is read). -/
structure OembedData where
  title : String
deriving DecidableEq

/-- One entry of `info.formats` from the ytdl library, with the fields the
routes read: `qualityLabel` and the audio/video availability used by
`ytdl.filterFormats(formats, "videoandaudio")`. -/
structure YtdlFormat where
  qualityLabel : Option String
  hasVideo : Bool
  hasAudio : Bool
deriving DecidableEq

/-- `info.videoDetails` fields read by the routes: `title`, the thumbnail
url list, and `lengthSeconds` (a decimal string). -/
structure YtdlVideoDetails where
  title : String
  thumbnails : List String
  lengthSeconds : String
deriving DecidableEq

/-- Result of `ytdl.getInfo(url)`. -/
structure YtdlInfo where
  formats : List YtdlFormat
  videoDetails : YtdlVideoDetails
deriving DecidableEq

/-- One `{quality, link}` pair of the RapidAPI `links` list. -/
structure RapidLink where
  quality : String
  link : String
deriving DecidableEq

/-- RapidAPI response body: `links` is absent (`none`) when the JSON has no
`links` field; `title`/`picture` are optional. -/
structure RapidData where
  links : Option (List RapidLink)
  title : Option String
  picture : Option String
deriving DecidableEq

/-- Outcome of the RapidAPI fetch: `ok` is `response.ok` (a fetch that
throws is subsumed by `ok = false`), `statusText` feeds the error message,
`data` is the parsed JSON body. -/
structure RapidNet where
  ok : Bool
  statusText : String
  data : RapidData
deriving DecidableEq

/-- The metadata object built by the analyzers (platform, title, thumbnail,
duration, qualities). -/
structure Metadata where
  platform : String
  title : String
  thumbnail : String
  duration : Int
  qualities : List String
deriving DecidableEq

/-- `ytdl.filterFormats(info.formats, "videoandaudio")`: the formats having
both an audio and a video track (modelled from the library's documented
filter for that tag). -/
def filterVideoAndAudio (formats : List YtdlFormat) : List YtdlFormat :=
  formats.filter (fun f => f.hasVideo && f.hasAudio)

/-- The truthy quality labels of a format list (analyze/route.ts lines
57-62: `if (f.qualityLabel) qualitySet.add(f.qualityLabel)`). -/
def labelsOf (formats : List YtdlFormat) : List String :=
  formats.filterMap (fun f =>
    match f.qualityLabel with
    | some q => if q = "" then none else some q
    | none => none)

/-- First-occurrence deduplication, the insertion behaviour of the
JavaScript `Set` followed by `Array.from` (analyze/route.ts lines 57-64). -/
def dedupSeen (seen : List String) : List String → List String
  | [] => []
  | a :: l => if seen.contains a then dedupSeen seen l else a :: dedupSeen (a :: seen) l

/-- `Array.from(qualitySet)` keeping first occurrences. -/
def dedupFirst (l : List String) : List String := dedupSeen [] l

/-- JavaScript `parseInt` restricted to the decimal forms that occur here:
optional whitespace, optional sign, leading decimal digits; `none` models
`NaN`. -/
def parseIntJS (s : String) : Option Int :=
  match s.toList.dropWhile (fun c => c == ' ' || c == '\t' || c == '\n' || c == '\r') with
  | '-' :: rest =>
    match rest.takeWhile Char.isDigit with
    | [] => none
    | ds => some (-(ds.foldl (fun acc c => acc * 10 + (c.toNat - 48)) 0 : Nat))
  | '+' :: rest =>
    match rest.takeWhile Char.isDigit with
    | [] => none
    | ds => some ((ds.foldl (fun acc c => acc * 10 + (c.toNat - 48)) 0 : Nat))
  | l =>
    match l.takeWhile Char.isDigit with
    | [] => none
    | ds => some ((ds.foldl (fun acc c => acc * 10 + (c.toNat - 48)) 0 : Nat))

/-- `parseInt(s) || 0` (analyze/route.ts line 74). -/
def parseIntOr0 (s : String) : Int := (parseIntJS s).getD 0

/-- Sort comparator `(a, b) => parseInt(b) - parseInt(a)` (analyze/route.ts
lines 64-68): `a` stays before `b` when the comparator is not positive; a
`NaN` comparator value is treated as zero (keep order). -/
def descLe (a b : String) : Bool :=
  match parseIntJS a, parseIntJS b with
  | some x, some y => decide (y ≤ x)
  | _, _ => true

/-- Stable insertion according to `descLe`. -/
def insertDesc (a : String) : List String → List String
  | [] => [a]
  | b :: l => if descLe a b then a :: b :: l else b :: insertDesc a l

/-- Stable sort by numeric value, descending (analyze/route.ts lines 64-68). -/
def sortDescNum : List String → List String
  | [] => []
  | a :: l => insertDesc a (sortDescNum l)

/-- `analyzeYouTube` (analyze/route.ts lines 27-89).  The oEmbed oracle is
`none` when the oEmbed fetch threw or returned a non-ok status (both fall
through to ytdl); the ytdl oracle is `none` when `ytdl.getInfo` threw. -/
def analyzeYouTube (url : String) (oembed : Option OembedData)
    (ytdl : Option YtdlInfo) : Except String Metadata :=
  match extractYouTubeId url with
  | none => .error "Invalid YouTube URL"
  | some videoId =>
    match oembed with
    | some d =>
      .ok { platform := "youtube"
            title := jsDefault (some d.title) "YouTube Video"
            thumbnail := "https://i.ytimg.com/vi/" ++ videoId ++ "/maxresdefault.jpg"
            duration := 0
            qualities := ["1080p", "720p", "480p", "360p"] }
    | none =>
      match ytdl with
      | some info =>
        .ok { platform := "youtube"
              title := info.videoDetails.title
              thumbnail := (info.videoDetails.thumbnails.getLast?).getD ""
              duration := parseIntOr0 info.videoDetails.lengthSeconds
              qualities :=
                if (sortDescNum (dedupFirst (labelsOf (filterVideoAndAudio info.formats)))).length > 0
                then sortDescNum (dedupFirst (labelsOf (filterVideoAndAudio info.formats)))
                else ["720p", "360p"] }
      | none =>
        .ok { platform := "youtube"
              title := "YouTube Video"
              thumbnail := "https://i.ytimg.com/vi/" ++ videoId ++ "/hqdefault.jpg"
              duration := 0
              qualities := ["720p", "360p"] }

/-- The hard-coded fallback value of `RAPIDAPI_KEY` (analyze/route.ts
line 92, download/route.ts line 14). -/
def defaultRapidApiKey : String := "660e8df9ffmshda83470792f30bep12a0b5jsnc90613c2cfde"

/-- `const RAPIDAPI_KEY = process.env.RAPIDAPI_KEY || "660e8df9..."`:
an unset or empty environment variable falls back to the hard-coded key.
The environment is modelled as `Option String` (`none` = unset). -/
def rapidApiKey (envKey : Option String) : String :=
  match envKey with
  | some k => if k = "" then defaultRapidApiKey else k
  | none => defaultRapidApiKey

/-- `fetchFromRapidAPI` (analyze/route.ts lines 95-114, download/route.ts
lines 17-36): guard on a falsy key, then the network fetch (oracle `net`),
erroring on a non-ok response. -/
def fetchFromRapidAPI (envKey : Option String) (net : RapidNet) : Except String RapidData :=
  if rapidApiKey envKey = "" then .error "RAPIDAPI_KEY is not configured"
  else if net.ok then .ok net.data
  else .error ("RapidAPI error: " ++ net.statusText)

/-- `data.links && data.links.length > 0 ? data.links[0].link : ""`
(analyze/route.ts lines 131-133, download/route.ts lines 114-116 and
136-138): the first link, or the empty string. -/
def firstLinkUrl (data : RapidData) : String :=
  match data.links with
  | some (l :: _) => l.link
  | _ => ""

/-- The Facebook link choice (download/route.ts lines 157-161): prefer the
link whose `quality` is `"hd"`, else the first link; empty string when the
list is empty or absent. -/
def facebookVideoUrl (data : RapidData) : String :=
  match data.links with
  | some (l :: ls) =>
    match (l :: ls).find? (fun x => x.quality == "hd") with
    | some h => h.link
    | none => l.link
  | _ => ""

/-- `analyzeTikTok` (analyze/route.ts lines 117-153): any failure inside the
try block (RapidAPI failure or missing video url) is caught and re-thrown as
the fixed message. -/
def analyzeTikTok (envKey : Option String) (net : RapidNet) : Except String Metadata :=
  match fetchFromRapidAPI envKey net with
  | .error _ => .error "Failed to analyze TikTok video"
  | .ok data =>
    if firstLinkUrl data = "" then .error "Failed to analyze TikTok video"
    else
      .ok { platform := "tiktok"
            title := jsDefault data.title "TikTok Video"
            thumbnail := jsDefault data.picture ""
            duration := 0
            qualities := ["HD", "SD"] }

/-- `analyzeInstagram` (analyze/route.ts lines 156-177): no link check. -/
def analyzeInstagram (envKey : Option String) (net : RapidNet) : Except String Metadata :=
  match fetchFromRapidAPI envKey net with
  | .error _ => .error "Failed to analyze Instagram video"
  | .ok data =>
    .ok { platform := "instagram"
          title := jsDefault data.title "Instagram Video"
          thumbnail := jsDefault data.picture ""
          duration := 0
          qualities := ["HD", "SD"] }

/-- `analyzeFacebook` (analyze/route.ts lines 180-201): no link check. -/
def analyzeFacebook (envKey : Option String) (net : RapidNet) : Except String Metadata :=
  match fetchFromRapidAPI envKey net with
  | .error _ => .error "Failed to analyze Facebook video"
  | .ok data =>
    .ok { platform := "facebook"
          title := jsDefault data.title "Facebook Video"
          thumbnail := jsDefault data.picture ""
          duration := 0
          qualities := ["HD", "SD"] }

/-- Responses of POST /api/analyze: `NextResponse.json(result)` (status 200)
or `NextResponse.json({message}, {status})`.  A JSON error response carries
no metadata. -/
inductive AnalyzeResponse where
  | ok (m : Metadata)
  | err (status : Nat) (message : String)
deriving DecidableEq

/-- Map an analyzer outcome through the POST catch clause (analyze/route.ts
lines 239-245): a thrown error becomes a 500 JSON error with its message. -/
def wrapAnalyze (r : Except String Metadata) : AnalyzeResponse :=
  match r with
  | .ok m => .ok m
  | .error e => .err 500 e

/-- Oracles for one analyze request: the oEmbed and ytdl outcomes, the
`RAPIDAPI_KEY` environment value and the RapidAPI fetch outcome. -/
structure AnalyzeEnv where
  oembed : Option OembedData
  ytdl : Option YtdlInfo
  envKey : Option String
  rapidNet : RapidNet
deriving DecidableEq

/-- `POST` of analyze/route.ts (lines 203-246).  `body` is `none` when the
`url` field is missing or not a string (the 400 guard of lines 208-213).
The second component lists the extractors dispatched to; every outbound
network call of the route lives inside an extractor, so `[]` means no
network call was attempted. -/
def analyzePOST (body : Option String) (env : AnalyzeEnv) :
    AnalyzeResponse × List String :=
  match body with
  | none => (.err 400 "URL is required", [])
  | some url =>
    if detectPlatform url = "youtube" then
      (wrapAnalyze (analyzeYouTube url env.oembed env.ytdl), ["youtube"])
    else if detectPlatform url = "tiktok" then
      (wrapAnalyze (analyzeTikTok env.envKey env.rapidNet), ["tiktok"])
    else if detectPlatform url = "instagram" then
      (wrapAnalyze (analyzeInstagram env.envKey env.rapidNet), ["instagram"])
    else if detectPlatform url = "facebook" then
      (wrapAnalyze (analyzeFacebook env.envKey env.rapidNet), ["facebook"])
    else
      (.err 400 "Unsupported platform. Use YouTube, TikTok, Instagram, or Facebook.", [])

/-- Outcome of the upstream media fetch performed by `streamVideo`
(download/route.ts lines 39-43): `ok` is `videoResponse.ok`, `body` the
upstream bytes, `contentLength` the optional `content-length` header. -/
structure UpstreamResponse where
  ok : Bool
  body : List Nat
  contentLength : Option String
deriving DecidableEq

/-- A 200 streaming response: its headers and the bytes forwarded to the
client. -/
structure StreamResponse where
  contentType : String
  contentDisposition : String
  contentLength : Option String
  body : List Nat
deriving DecidableEq

/-- `streamVideo` (download/route.ts lines 38-56): on a non-ok upstream
response it throws before constructing any response, so the error carries no
body bytes; otherwise it forwards the upstream body with the download
headers. -/
def streamVideo (up : UpstreamResponse) (filename : String) :
    Except String StreamResponse :=
  if up.ok then
    .ok { contentType := "video/mp4"
          contentDisposition := "attachment; filename=\"" ++ filename ++ "\""
          contentLength := some (up.contentLength.getD "")
          body := up.body }
  else .error "Failed to download video stream"

/-- The format selection of `downloadYouTube` (download/route.ts lines
64-74): the first combined format whose `qualityLabel` equals the requested
quality, else `formats[0]`, else the `"No suitable format found"` error. -/
def ytSelectFormat (info : YtdlInfo) (quality : String) : Except String YtdlFormat :=
  match (filterVideoAndAudio info.formats).find? (fun f => f.qualityLabel == some quality) with
  | some f => .ok f
  | none =>
    match filterVideoAndAudio info.formats with
    | [] => .error "No suitable format found"
    | f :: _ => .ok f

/-- Character class `[\w\s-]` of the filename sanitizer (download/route.ts
line 93); `\s` is modelled by the ASCII whitespace characters. -/
def isFilenameKeep (c : Char) : Bool :=
  (65 ≤ c.toNat && c.toNat ≤ 90) || (97 ≤ c.toNat && c.toNat ≤ 122)
  || (48 ≤ c.toNat && c.toNat ≤ 57) || c == '_' || c == '-'
  || c == ' ' || c == '\t' || c == '\n' || c == '\r'

/-- `title.replace(/[^\w\s-]/g, "").substring(0, 50)` (download/route.ts
line 93). -/
def sanitizeTitle (s : String) : String :=
  String.mk ((s.toList.filter isFilenameKeep).take 50)

/-- The catch-all error message of `downloadYouTube` (download/route.ts
line 104): every failure inside the try block is replaced by it. -/
def ytBlockedMsg : String :=
  "YouTube download is currently unavailable on this server. YouTube blocks requests from cloud servers. Please try TikTok, Instagram, or Facebook videos instead."

/-- Oracles for one download request: the ytdl outcome, the bytes produced
by the ytdl stream, the `RAPIDAPI_KEY` environment value, the RapidAPI
fetch outcome and the upstream media fetch outcome. -/
structure DownloadEnv where
  ytdl : Option YtdlInfo
  ytBytes : List Nat
  envKey : Option String
  rapidNet : RapidNet
  upstream : UpstreamResponse
deriving DecidableEq

/-- `downloadYouTube` (download/route.ts lines 59-106): `ytdl.getInfo`
(oracle `env.ytdl`, `none` = threw), format selection, then a chunked
streaming response; any failure is caught and re-thrown as `ytBlockedMsg`. -/
def downloadYouTube (env : DownloadEnv) (quality : String) :
    Except String StreamResponse :=
  match env.ytdl with
  | none => .error ytBlockedMsg
  | some info =>
    match ytSelectFormat info quality with
    | .error _ => .error ytBlockedMsg
    | .ok _ =>
      .ok { contentType := "video/mp4"
            contentDisposition :=
              "attachment; filename=\"" ++ sanitizeTitle info.videoDetails.title ++ ".mp4\""
            contentLength := none
            body := env.ytBytes }

/-- The link resolution of `downloadTikTok` before streaming
(download/route.ts lines 112-120): first link or the
`"No video link found from RapidAPI"` error. -/
def downloadTikTokLink (data : RapidData) : Except String String :=
  if firstLinkUrl data = "" then .error "No video link found from RapidAPI"
  else .ok (firstLinkUrl data)

/-- The link resolution of `downloadInstagram` (download/route.ts lines
133-142): identical to TikTok, the first link. -/
def downloadInstagramLink (data : RapidData) : Except String String :=
  if firstLinkUrl data = "" then .error "No video link found from RapidAPI"
  else .ok (firstLinkUrl data)

/-- The link resolution of `downloadFacebook` (download/route.ts lines
154-165): the `hd`-tagged link when present, else the first. -/
def downloadFacebookLink (data : RapidData) : Except String String :=
  if facebookVideoUrl data = "" then .error "No video link found from RapidAPI"
  else .ok (facebookVideoUrl data)

/-- The try block of `downloadTikTok` (download/route.ts lines 110-122):
RapidAPI fetch, link choice, then `streamVideo`. -/
def downloadTikTokRes (env : DownloadEnv) : Except String StreamResponse := do
  let data ← fetchFromRapidAPI env.envKey env.rapidNet
  let _ ← downloadTikTokLink data
  streamVideo env.upstream "tiktok_video.mp4"

/-- `downloadTikTok` (download/route.ts lines 109-127): every failure of
the try block is caught and re-thrown as the fixed message. -/
def downloadTikTok (env : DownloadEnv) : Except String StreamResponse :=
  match downloadTikTokRes env with
  | .ok s => .ok s
  | .error _ => .error "Failed to download TikTok video via RapidAPI"

/-- The try block of `downloadInstagram` (download/route.ts lines 131-144). -/
def downloadInstagramRes (env : DownloadEnv) : Except String StreamResponse := do
  let data ← fetchFromRapidAPI env.envKey env.rapidNet
  let _ ← downloadInstagramLink data
  streamVideo env.upstream "instagram_video.mp4"

/-- `downloadInstagram` (download/route.ts lines 130-149). -/
def downloadInstagram (env : DownloadEnv) : Except String StreamResponse :=
  match downloadInstagramRes env with
  | .ok s => .ok s
  | .error _ => .error "Failed to download Instagram video via RapidAPI"

/-- The try block of `downloadFacebook` (download/route.ts lines 153-167). -/
def downloadFacebookRes (env : DownloadEnv) : Except String StreamResponse := do
  let data ← fetchFromRapidAPI env.envKey env.rapidNet
  let _ ← downloadFacebookLink data
  streamVideo env.upstream "facebook_video.mp4"

/-- `downloadFacebook` (download/route.ts lines 152-172). -/
def downloadFacebook (env : DownloadEnv) : Except String StreamResponse :=
  match downloadFacebookRes env with
  | .ok s => .ok s
  | .error _ => .error "Failed to download Facebook video via RapidAPI"

/-- Responses of POST /api/download: a 200 streaming response or a JSON
error (which carries no body bytes). -/
inductive DownloadResponse where
  | stream (r : StreamResponse)
  | jsonError (status : Nat) (message : String)
deriving DecidableEq

/-- Map a downloader outcome through the POST catch clause
(download/route.ts lines 210-216). -/
def wrapDownload (r : Except String StreamResponse) : DownloadResponse :=
  match r with
  | .ok s => .stream s
  | .error e => .jsonError 500 e

/-- `POST` of download/route.ts (lines 174-217).  `body` is `none` when the
`url` field is missing or not a string; the quality defaults to `"720p"`.
The second component lists the dispatched downloaders; every outbound
network call of the route lives inside a downloader, so `[]` means no
network call was attempted. -/
def downloadPOST (body : Option (String × Option String)) (env : DownloadEnv) :
    DownloadResponse × List String :=
  match body with
  | none => (.jsonError 400 "URL is required", [])
  | some (url, q) =>
    if detectPlatform url = "youtube" then
      (wrapDownload (downloadYouTube env (q.getD "720p")), ["youtube"])
    else if detectPlatform url = "tiktok" then
      (wrapDownload (downloadTikTok env), ["tiktok"])
    else if detectPlatform url = "instagram" then
      (wrapDownload (downloadInstagram env), ["instagram"])
    else if detectPlatform url = "facebook" then
      (wrapDownload (downloadFacebook env), ["facebook"])
    else (.jsonError 400 "Unsupported platform", [])

/-- The `status` union of `VideoInfo` (store.ts line 14). -/
inductive VStatus where
  | pending
  | analyzing
  | ready
  | downloading
  | completed
  | error
deriving DecidableEq

/-- Status updates performed by `handleAnalyze` (url-input.tsx lines 57-95)
after `addVideo` created the video in status `pending`: first
`status: "analyzing"` (line 61), then `"ready"` on success (line 82) or
`"error"` in the catch clause (line 89). -/
def analyzeTrace (success : Bool) : List VStatus :=
  [.analyzing, if success then .ready else .error]

/-- Status updates performed by `handleDownload` (video-card.tsx lines
44-116): `status: "downloading"` (line 46), then `"completed"` on success
(line 105) or `"error"` in the catch clause (line 109); the progress-only
updates of line 90 do not change the status. -/
def downloadTrace (success : Bool) : List VStatus :=
  [.downloading, if success then .completed else .error]

/-- The status histories a single queued video can go through at the
client boundary.  `analyzed`: `addVideo` (store.ts line 46, status
`pending`) followed by `handleAnalyze`'s updates.  `downloaded`:
`handleDownload`'s updates, which are reachable only from a card in status
`ready` — the Download button is rendered only under `isReady`
(video-card.tsx lines 122 and 189-217). -/
inductive ClientTrace : List VStatus → Prop where
  | analyzed (b : Bool) : ClientTrace (VStatus.pending :: analyzeTrace b)
  | downloaded (b : Bool) (t : List VStatus) (h : ClientTrace t)
      (hl : t.getLast? = some VStatus.ready) : ClientTrace (t ++ downloadTrace b)

/-- The transition relation claimed by the specification's state machine:
`pending → analyzing → {ready | error}`, `ready → downloading →
{completed | error}`. -/
def allowedStep : VStatus → VStatus → Bool
  | .pending, .analyzing => true
  | .analyzing, .ready => true
  | .analyzing, .error => true
  | .ready, .downloading => true
  | .downloading, .completed => true
  | .downloading, .error => true
  | _, _ => false

/-- Every adjacent pair of a history is an allowed transition. -/
def chainOK : List VStatus → Bool
  | [] => true
  | [_] => true
  | a :: b :: t => allowedStep a b && chainOK (b :: t)

/-- Index of the first occurrence of a status in a history (length when
absent). -/
def idxOf (a : VStatus) : List VStatus → Nat
  | [] => 0
  | b :: t => if a = b then 0 else idxOf a t + 1

/-- Concrete fixtures used by the witness theorems. -/
def envA0 : AnalyzeEnv :=
  { oembed := some { title := "Never Gonna Give You Up" }
    ytdl := none
    envKey := some "testkey"
    rapidNet := { ok := true, statusText := "OK", data := { links := none, title := none, picture := none } } }

def upFail0 : UpstreamResponse := { ok := false, body := [1, 2, 3], contentLength := some "3" }

def envD0 : DownloadEnv :=
  { ytdl := none
    ytBytes := []
    envKey := some "testkey"
    rapidNet :=
      { ok := true, statusText := "OK"
        data := { links := some [{ quality := "hd", link := "https://cdn.example/v.mp4" }]
                  title := none, picture := none } }
    upstream := upFail0 }

def info5 : YtdlInfo :=
  { formats :=
      [ { qualityLabel := some "1080p", hasVideo := true, hasAudio := false }
      , { qualityLabel := some "720p", hasVideo := true, hasAudio := true }
      , { qualityLabel := some "360p", hasVideo := true, hasAudio := true } ]
    videoDetails := { title := "Clip", thumbnails := [], lengthSeconds := "10" } }

def fmt720 : YtdlFormat := { qualityLabel := some "720p", hasVideo := true, hasAudio := true }

def data6 : RapidData :=
  { links := some [{ quality := "sd", link := "urlA" }, { quality := "hd", link := "urlB" }]
    title := none
    picture := none }

def data6b : RapidData :=
  { links := some [{ quality := "hd", link := "urlB" }, { quality := "sd", link := "urlA" }]
    title := none
    picture := none }

/-- Decidable equality of `Except` results, used to evaluate the model on
concrete inputs. -/
instance {e a : Type} [DecidableEq e] [DecidableEq a] : DecidableEq (Except e a) := fun x y =>
  match x, y with
  | .error u, .error v =>
    if h : u = v then .isTrue (congrArg Except.error h)
    else .isFalse (fun he => h (Except.error.inj he))
  | .ok u, .ok v =>
    if h : u = v then .isTrue (congrArg Except.ok h)
    else .isFalse (fun he => h (Except.ok.inj he))
  | .error _, .ok _ => .isFalse (fun he => Except.noConfusion he)
  | .ok _, .error _ => .isFalse (fun he => Except.noConfusion he)

/-! ## Helper lemmas -/

theorem classifyBools_eq_youtube (a b c d : Bool) :
    classifyBools a b c d = "youtube" ↔ a = true := by
  revert a b c d
  decide

theorem classifyBools_eq_tiktok (a b c d : Bool) :
    classifyBools a b c d = "tiktok" ↔ a = false ∧ b = true := by
  revert a b c d
  decide

theorem classifyBools_eq_instagram (a b c d : Bool) :
    classifyBools a b c d = "instagram" ↔ a = false ∧ b = false ∧ c = true := by
  revert a b c d
  decide

theorem classifyBools_eq_facebook (a b c d : Bool) :
    classifyBools a b c d = "facebook" ↔
      a = false ∧ b = false ∧ c = false ∧ d = true := by
  revert a b c d
  decide

theorem classifyBools_eq_unknown (a b c d : Bool) :
    classifyBools a b c d = "unknown" ↔
      a = false ∧ b = false ∧ c = false ∧ d = false := by
  revert a b c d
  decide

theorem classifyBools_total (a b c d : Bool) :
    classifyBools a b c d = "youtube" ∨ classifyBools a b c d = "tiktok"
    ∨ classifyBools a b c d = "instagram" ∨ classifyBools a b c d = "facebook"
    ∨ classifyBools a b c d = "unknown" := by
  revert a b c d
  decide

/-- C1: the platform classifier of both API routes is a total pure function
on strings (hence deterministic and side-effect free); it applies the four
rules in order — YouTube domains/short link, then tiktok.com, then
instagram.com, then facebook.com / fb.watch — returning "unknown" exactly
when none matches, and its result is invariant under case: any two URLs
with the same lower-cased character codes classify identically. -/
theorem claim_C1 (url : String) :
    (detectPlatform url = "youtube" ∨ detectPlatform url = "tiktok"
      ∨ detectPlatform url = "instagram" ∨ detectPlatform url = "facebook"
      ∨ detectPlatform url = "unknown")
    ∧ (detectPlatform url = "youtube" ↔ ytMatch (lowerCodes url) = true)
    ∧ (detectPlatform url = "tiktok" ↔
        ytMatch (lowerCodes url) = false ∧ tkMatch (lowerCodes url) = true)
    ∧ (detectPlatform url = "instagram" ↔
        ytMatch (lowerCodes url) = false ∧ tkMatch (lowerCodes url) = false
        ∧ igMatch (lowerCodes url) = true)
    ∧ (detectPlatform url = "facebook" ↔
        ytMatch (lowerCodes url) = false ∧ tkMatch (lowerCodes url) = false
        ∧ igMatch (lowerCodes url) = false ∧ fbMatch (lowerCodes url) = true)
    ∧ (detectPlatform url = "unknown" ↔
        ytMatch (lowerCodes url) = false ∧ tkMatch (lowerCodes url) = false
        ∧ igMatch (lowerCodes url) = false ∧ fbMatch (lowerCodes url) = false)
    ∧ (∀ u2 : String, lowerCodes u2 = lowerCodes url →
        detectPlatform u2 = detectPlatform url) := by
  refine ⟨?_, ?_, ?_, ?_, ?_, ?_, ?_⟩
  · exact classifyBools_total _ _ _ _
  · exact classifyBools_eq_youtube _ _ _ _
  · exact classifyBools_eq_tiktok _ _ _ _
  · exact classifyBools_eq_instagram _ _ _ _
  · exact classifyBools_eq_facebook _ _ _ _
  · exact classifyBools_eq_unknown _ _ _ _
  · intro u2 h
    simp only [detectPlatform]
    rw [h]

theorem claim_C1_witness :
    detectPlatform "https://WWW.YouTube.COM/watch?v=abc"
      = detectPlatform "https://www.youtube.com/watch?v=abc" :=
  (claim_C1 "https://www.youtube.com/watch?v=abc").2.2.2.2.2.2
    "https://WWW.YouTube.COM/watch?v=abc" (by decide)

theorem startsWithL_nil_iff {α : Type} [DecidableEq α] (p : List α) :
    startsWithL ([] : List α) p = true ↔ p = [] := by
  cases p <;> simp [startsWithL]

theorem startsWithL_of_append {α : Type} [DecidableEq α] (l p q : List α)
    (h : startsWithL l (p ++ q) = true) : startsWithL l p = true := by
  induction p generalizing l with
  | nil => cases l <;> simp [startsWithL]
  | cons b p ih =>
    cases l with
    | nil => simp [startsWithL] at h
    | cons a l =>
      by_cases hab : a = b
      · subst hab
        simp only [List.cons_append, startsWithL, if_pos rfl] at h ⊢
        exact ih l h
      · simp only [List.cons_append, startsWithL, if_neg hab] at h
        exact absurd h (by decide)

theorem containsSub_cons {α : Type} [DecidableEq α] (a : α) (l p : List α)
    (h : containsSub l p = true) : containsSub (a :: l) p = true := by
  simp only [containsSub, Bool.or_eq_true]
  exact Or.inr h

theorem containsSub_of_startsWithL {α : Type} [DecidableEq α] (l p : List α)
    (h : startsWithL l p = true) : containsSub l p = true := by
  cases l with
  | nil => simpa [containsSub] using h
  | cons a t => simp only [containsSub, Bool.or_eq_true]; exact Or.inl h

theorem containsSub_of_append_left {α : Type} [DecidableEq α] (l p q : List α)
    (h : containsSub l (p ++ q) = true) : containsSub l p = true := by
  induction l with
  | nil =>
    rw [show containsSub ([] : List α) (p ++ q) = startsWithL [] (p ++ q) from rfl] at h
    rw [startsWithL_nil_iff] at h
    rcases List.append_eq_nil.mp h with ⟨rfl, rfl⟩
    simp [containsSub, startsWithL]
  | cons a t ih =>
    simp only [containsSub, Bool.or_eq_true] at h
    rcases h with h | h
    · exact containsSub_of_startsWithL _ _ (startsWithL_of_append _ _ _ h)
    · exact containsSub_cons _ _ _ (ih h)

theorem containsSub_of_startsWithL_append {α : Type} [DecidableEq α]
    (l p q : List α) (h : startsWithL l (p ++ q) = true) :
    containsSub l q = true := by
  induction p generalizing l with
  | nil => exact containsSub_of_startsWithL _ _ h
  | cons b p ih =>
    cases l with
    | nil => simp [startsWithL] at h
    | cons a l =>
      by_cases hab : a = b
      · subst hab
        simp only [List.cons_append, startsWithL, if_pos rfl] at h
        exact containsSub_cons _ _ _ (ih l h)
      · simp only [List.cons_append, startsWithL, if_neg hab] at h
        exact absurd h (by decide)

theorem containsSub_of_append_right {α : Type} [DecidableEq α] (l p q : List α)
    (h : containsSub l (p ++ q) = true) : containsSub l q = true := by
  induction l with
  | nil =>
    rw [show containsSub ([] : List α) (p ++ q) = startsWithL [] (p ++ q) from rfl] at h
    rw [startsWithL_nil_iff] at h
    rcases List.append_eq_nil.mp h with ⟨rfl, rfl⟩
    simp [containsSub, startsWithL]
  | cons a t ih =>
    simp only [containsSub, Bool.or_eq_true] at h
    rcases h with h | h
    · exact containsSub_of_startsWithL_append _ _ _ h
    · exact containsSub_cons _ _ _ (ih h)

theorem tkScan_contains (l : List Nat) (h : tkScan l = true) :
    containsSub l (toCodes "tiktok.com/@") = true := by
  induction l with
  | nil => simp [tkScan] at h
  | cons a t ih =>
    simp only [tkScan, Bool.or_eq_true, Bool.and_eq_true] at h
    rcases h with ⟨h1, _⟩ | h2
    · exact containsSub_of_startsWithL _ _ h1
    · exact containsSub_cons _ _ _ (ih h2)

theorem fbScan_contains (l : List Nat) (h : fbScan l = true) :
    containsSub l (toCodes "facebook.com/") = true := by
  induction l with
  | nil => simp [fbScan] at h
  | cons a t ih =>
    simp only [fbScan, Bool.or_eq_true, Bool.and_eq_true] at h
    rcases h with ⟨h1, _⟩ | h2
    · exact containsSub_of_startsWithL _ _ h1
    · exact containsSub_cons _ _ _ (ih h2)

theorem clientYtTest_imp (h : List Nat) (hc : clientYtTest h = true) :
    ytMatch h = true := by
  simp only [clientYtTest, Bool.or_eq_true] at hc
  simp only [ytMatch, Bool.or_eq_true]
  rcases hc with (hc | hc) | hc
  · exact Or.inl (containsSub_of_append_left h (toCodes "youtube.com") (toCodes "/watch?v=")
      (by rw [show toCodes "youtube.com" ++ toCodes "/watch?v=" = toCodes "youtube.com/watch?v=" from by decide]; exact hc))
  · exact Or.inl (containsSub_of_append_left h (toCodes "youtube.com") (toCodes "/shorts/")
      (by rw [show toCodes "youtube.com" ++ toCodes "/shorts/" = toCodes "youtube.com/shorts/" from by decide]; exact hc))
  · exact Or.inr (containsSub_of_append_left h (toCodes "youtu.be") (toCodes "/")
      (by rw [show toCodes "youtu.be" ++ toCodes "/" = toCodes "youtu.be/" from by decide]; exact hc))

theorem clientTkTest_imp (h : List Nat) (hc : clientTkTest h = true) :
    tkMatch h = true := by
  simp only [clientTkTest, Bool.or_eq_true] at hc
  simp only [tkMatch]
  rcases hc with hc | hc
  · exact containsSub_of_append_left h (toCodes "tiktok.com") (toCodes "/@")
      (by rw [show toCodes "tiktok.com" ++ toCodes "/@" = toCodes "tiktok.com/@" from by decide]
          exact tkScan_contains h hc)
  · refine containsSub_of_append_left h (toCodes "tiktok.com") (toCodes "/") ?_
    refine containsSub_of_append_right h (toCodes "vm.") (toCodes "tiktok.com" ++ toCodes "/") ?_
    rw [show toCodes "vm." ++ (toCodes "tiktok.com" ++ toCodes "/") = toCodes "vm.tiktok.com/" from by decide]
    exact hc

theorem clientIgTest_imp (h : List Nat) (hc : clientIgTest h = true) :
    igMatch h = true := by
  simp only [clientIgTest, Bool.or_eq_true] at hc
  simp only [igMatch]
  rcases hc with (hc | hc) | hc
  · exact containsSub_of_append_left h (toCodes "instagram.com") (toCodes "/p/")
      (by rw [show toCodes "instagram.com" ++ toCodes "/p/" = toCodes "instagram.com/p/" from by decide]; exact hc)
  · exact containsSub_of_append_left h (toCodes "instagram.com") (toCodes "/reel/")
      (by rw [show toCodes "instagram.com" ++ toCodes "/reel/" = toCodes "instagram.com/reel/" from by decide]; exact hc)
  · exact containsSub_of_append_left h (toCodes "instagram.com") (toCodes "/reels/")
      (by rw [show toCodes "instagram.com" ++ toCodes "/reels/" = toCodes "instagram.com/reels/" from by decide]; exact hc)

theorem clientFbTest_imp (h : List Nat) (hc : clientFbTest h = true) :
    fbMatch h = true := by
  simp only [clientFbTest, Bool.or_eq_true] at hc
  simp only [fbMatch, Bool.or_eq_true]
  rcases hc with hc | hc
  · exact Or.inl (containsSub_of_append_left h (toCodes "facebook.com") (toCodes "/")
      (by rw [show toCodes "facebook.com" ++ toCodes "/" = toCodes "facebook.com/" from by decide]
          exact fbScan_contains h hc))
  · exact Or.inr (containsSub_of_append_left h (toCodes "fb.watch") (toCodes "/")
      (by rw [show toCodes "fb.watch" ++ toCodes "/" = toCodes "fb.watch/" from by decide]; exact hc))

/-- C10 counterexample: the claim that every non-unknown client-side
classification is reproduced by the server-side classifier fails at
`"https://vm.tiktok.com/a?youtube.com"`: the client classifies it as
tiktok, the server (whose YouTube rule is the bare substring
`youtube.com` and runs first) as youtube. -/
theorem claim_C10_cex :
    clientDetectPlatform "https://vm.tiktok.com/a?youtube.com" = Platform.tiktok
    ∧ detectPlatform "https://vm.tiktok.com/a?youtube.com" = "youtube" := by
  decide

/-- C10 (amended): the client classifier's non-unknown verdicts refine the
server classifier only up to platform support: a client youtube verdict is
reproduced exactly by the server, and any non-unknown client verdict yields
a non-unknown server verdict, but for the other platforms the server may
pick an earlier platform of its rule order. -/
theorem claim_C10 (url : String) :
    (clientDetectPlatform url = Platform.youtube → detectPlatform url = "youtube")
    ∧ (clientDetectPlatform url ≠ Platform.unknown → detectPlatform url ≠ "unknown") := by
  constructor
  · intro h
    cases hy : clientYtTest (lowerCodes url) with
    | true =>
      show classifyBools (ytMatch (lowerCodes url)) _ _ _ = "youtube"
      rw [clientYtTest_imp _ hy]
      rfl
    | false =>
      exfalso
      revert h
      simp only [clientDetectPlatform, hy, Bool.false_eq_true, if_false]
      split_ifs <;> simp
  · intro hne hu
    obtain ⟨ha, hb, hc2, hd⟩ :=
      (classifyBools_eq_unknown (ytMatch (lowerCodes url)) (tkMatch (lowerCodes url))
        (igMatch (lowerCodes url)) (fbMatch (lowerCodes url))).mp hu
    apply hne
    have cy : clientYtTest (lowerCodes url) = false := by
      cases hcy : clientYtTest (lowerCodes url)
      · rfl
      · rw [clientYtTest_imp _ hcy] at ha; exact absurd ha (by decide)
    have ct : clientTkTest (lowerCodes url) = false := by
      cases hct : clientTkTest (lowerCodes url)
      · rfl
      · rw [clientTkTest_imp _ hct] at hb; exact absurd hb (by decide)
    have ci : clientIgTest (lowerCodes url) = false := by
      cases hci : clientIgTest (lowerCodes url)
      · rfl
      · rw [clientIgTest_imp _ hci] at hc2; exact absurd hc2 (by decide)
    have cf : clientFbTest (lowerCodes url) = false := by
      cases hcf : clientFbTest (lowerCodes url)
      · rfl
      · rw [clientFbTest_imp _ hcf] at hd; exact absurd hd (by decide)
    simp [clientDetectPlatform, cy, ct, ci, cf]

theorem claim_C10_witness :
    detectPlatform "https://youtu.be/xyz" = "youtube"
    ∧ detectPlatform "https://vm.tiktok.com/ABC" ≠ "unknown" :=
  ⟨(claim_C10 "https://youtu.be/xyz").1 (by decide),
   (claim_C10 "https://vm.tiktok.com/ABC").2 (by decide)⟩

/-- C2: a request whose url classifies as unknown gets a 400 JSON error
with a message from both POST /api/analyze and POST /api/download, and the
dispatch list is empty: no extractor is invoked, hence (every outbound
fetch of the routes lives inside an extractor) no network call is
attempted. -/
theorem claim_C2 (url : String) (envA : AnalyzeEnv) (envD : DownloadEnv)
    (q : Option String) (h : detectPlatform url = "unknown") :
    analyzePOST (some url) envA =
      (.err 400 "Unsupported platform. Use YouTube, TikTok, Instagram, or Facebook.", [])
    ∧ downloadPOST (some (url, q)) envD = (.jsonError 400 "Unsupported platform", []) := by
  constructor
  · simp [analyzePOST, h]
  · simp [downloadPOST, h]

theorem claim_C2_witness :
    analyzePOST (some "https://example.com/video") envA0 =
      (.err 400 "Unsupported platform. Use YouTube, TikTok, Instagram, or Facebook.", [])
    ∧ downloadPOST (some ("https://example.com/video", none)) envD0 =
      (.jsonError 400 "Unsupported platform", []) :=
  claim_C2 "https://example.com/video" envA0 envD0 none (by decide)

theorem wrapAnalyze_ok_inv (r : Except String Metadata) (m : Metadata)
    (h : wrapAnalyze r = .ok m) : r = .ok m := by
  cases r with
  | ok m2 => simpa [wrapAnalyze] using h
  | error e => simp [wrapAnalyze] at h

theorem analyzeYouTube_ok_qualities (url : String) (o : Option OembedData)
    (y : Option YtdlInfo) (m : Metadata)
    (h : analyzeYouTube url o y = .ok m) : m.qualities ≠ [] := by
  unfold analyzeYouTube at h
  split at h
  · simp at h
  · split at h
    · simp only [Except.ok.injEq] at h
      subst h
      simp
    · split at h
      · simp only [Except.ok.injEq] at h
        subst h
        simp only []
        split
        · next hlen => exact List.length_pos.mp hlen
        · simp
      · simp only [Except.ok.injEq] at h
        subst h
        simp

theorem analyzeTikTok_ok_qualities (k : Option String) (net : RapidNet)
    (m : Metadata) (h : analyzeTikTok k net = .ok m) : m.qualities = ["HD", "SD"] := by
  unfold analyzeTikTok at h
  split at h
  · simp at h
  · split at h
    · simp at h
    · simp only [Except.ok.injEq] at h
      subst h
      rfl

theorem analyzeInstagram_ok_qualities (k : Option String) (net : RapidNet)
    (m : Metadata) (h : analyzeInstagram k net = .ok m) : m.qualities = ["HD", "SD"] := by
  unfold analyzeInstagram at h
  split at h
  · simp at h
  · simp only [Except.ok.injEq] at h
    subst h
    rfl

theorem analyzeFacebook_ok_qualities (k : Option String) (net : RapidNet)
    (m : Metadata) (h : analyzeFacebook k net = .ok m) : m.qualities = ["HD", "SD"] := by
  unfold analyzeFacebook at h
  split at h
  · simp at h
  · simp only [Except.ok.injEq] at h
    subst h
    rfl

/-- C3: whenever POST /api/analyze answers 200 with a metadata object, its
qualities list is non-empty — every analyzer substitutes a non-empty
default list when no platform quality data was obtained. -/
theorem claim_C3 (body : Option String) (env : AnalyzeEnv) (m : Metadata)
    (calls : List String) (h : analyzePOST body env = (.ok m, calls)) :
    m.qualities ≠ [] := by
  cases body with
  | none => simp [analyzePOST] at h
  | some url =>
    simp only [analyzePOST] at h
    split_ifs at h
    · rw [Prod.mk.injEq] at h
      exact analyzeYouTube_ok_qualities url env.oembed env.ytdl m
        (wrapAnalyze_ok_inv _ _ h.1)
    · rw [Prod.mk.injEq] at h
      rw [analyzeTikTok_ok_qualities env.envKey env.rapidNet m
        (wrapAnalyze_ok_inv _ _ h.1)]
      simp
    · rw [Prod.mk.injEq] at h
      rw [analyzeInstagram_ok_qualities env.envKey env.rapidNet m
        (wrapAnalyze_ok_inv _ _ h.1)]
      simp
    · rw [Prod.mk.injEq] at h
      rw [analyzeFacebook_ok_qualities env.envKey env.rapidNet m
        (wrapAnalyze_ok_inv _ _ h.1)]
      simp
    · simp at h

theorem claim_C3_witness :
    analyzePOST (some "https://youtu.be/abc") envA0 =
      (.ok { platform := "youtube", title := "Never Gonna Give You Up"
             thumbnail := "https://i.ytimg.com/vi/abc/maxresdefault.jpg"
             duration := 0, qualities := ["1080p", "720p", "480p", "360p"] }, ["youtube"])
    ∧ ({ platform := "youtube", title := "Never Gonna Give You Up"
         thumbnail := "https://i.ytimg.com/vi/abc/maxresdefault.jpg"
         duration := 0, qualities := ["1080p", "720p", "480p", "360p"] } : Metadata).qualities ≠ [] :=
  ⟨by decide,
   claim_C3 (some "https://youtu.be/abc") envA0 _ ["youtube"] (by decide)⟩

/-- C4 counterexample: when the oEmbed call succeeds but carries an empty
title, analyze does not return the oEmbed title (the empty string) — it
substitutes the placeholder `"YouTube Video"` (the `||` default of
analyze/route.ts line 42), so the claim "returns the title from the oEmbed
response" fails as stated. -/
theorem claim_C4_cex :
    analyzeYouTube "https://youtu.be/abc" (some { title := "" }) none =
      .ok { platform := "youtube", title := "YouTube Video"
            thumbnail := "https://i.ytimg.com/vi/abc/maxresdefault.jpg"
            duration := 0, qualities := ["1080p", "720p", "480p", "360p"] }
    ∧ ("YouTube Video" : String) ≠ "" := by
  constructor
  · decide
  · decide

/-- C4 (amended): for every YouTube URL from which a video id is extracted,
if the oEmbed call succeeds then analyze returns the oEmbed title when it
is non-empty (otherwise the placeholder "YouTube Video"), a thumbnail URL
synthesized from the i.ytimg.com pattern keyed by the video id, duration 0,
and exactly the fixed default quality list. -/
theorem claim_C4 (url vid : String) (d : OembedData) (y : Option YtdlInfo)
    (h : extractYouTubeId url = some vid) :
    analyzeYouTube url (some d) y =
      .ok { platform := "youtube"
            title := if d.title = "" then "YouTube Video" else d.title
            thumbnail := "https://i.ytimg.com/vi/" ++ vid ++ "/maxresdefault.jpg"
            duration := 0
            qualities := ["1080p", "720p", "480p", "360p"] } := by
  unfold analyzeYouTube
  rw [h]
  rfl

theorem claim_C4_witness :
    analyzeYouTube "https://youtu.be/abc" (some { title := "My Video" }) none =
      .ok { platform := "youtube"
            title := if ("My Video" : String) = "" then "YouTube Video" else "My Video"
            thumbnail := "https://i.ytimg.com/vi/" ++ "abc" ++ "/maxresdefault.jpg"
            duration := 0
            qualities := ["1080p", "720p", "480p", "360p"] } :=
  claim_C4 "https://youtu.be/abc" "abc" { title := "My Video" } none (by decide)

/-- C5: the YouTube download format choice among the combined audio+video
formats: the first format whose quality label equals the requested quality
is selected; when none matches, the first combined format is selected
without failing; the `"No suitable format found"` error occurs exactly when
the combined format list is empty. -/
theorem claim_C5 (info : YtdlInfo) (q : String) :
    (∀ f, (filterVideoAndAudio info.formats).find?
        (fun g => g.qualityLabel == some q) = some f →
      ytSelectFormat info q = .ok f)
    ∧ (∀ f l, (filterVideoAndAudio info.formats).find?
        (fun g => g.qualityLabel == some q) = none →
      filterVideoAndAudio info.formats = f :: l → ytSelectFormat info q = .ok f)
    ∧ ((∃ e, ytSelectFormat info q = .error e) ↔ filterVideoAndAudio info.formats = [])
    ∧ (filterVideoAndAudio info.formats = [] →
      ytSelectFormat info q = .error "No suitable format found") := by
  refine ⟨?_, ?_, ?_, ?_⟩
  · intro f hf
    unfold ytSelectFormat
    rw [hf]
  · intro f l hn he
    unfold ytSelectFormat
    rw [hn, he]
  · constructor
    · rintro ⟨e, he⟩
      unfold ytSelectFormat at he
      cases hfind : (filterVideoAndAudio info.formats).find?
          (fun g => g.qualityLabel == some q) with
      | some f => rw [hfind] at he; simp at he
      | none =>
        rw [hfind] at he
        cases hl : filterVideoAndAudio info.formats with
        | nil => rfl
        | cons f l => rw [hl] at he; simp at he
    · intro hl
      refine ⟨"No suitable format found", ?_⟩
      unfold ytSelectFormat
      rw [hl]
      simp [List.find?]
  · intro hl
    unfold ytSelectFormat
    rw [hl]
    simp [List.find?]

theorem claim_C5_witness :
    (filterVideoAndAudio info5.formats).find?
      (fun g => g.qualityLabel == some "720p") = some fmt720
    ∧ ytSelectFormat info5 "720p" = .ok fmt720 :=
  ⟨by decide, (claim_C5 info5 "720p").1 fmt720 (by decide)⟩

/-- C6 counterexample: the claim says the `hd`-tagged link is picked for
TikTok, Instagram and Facebook alike, but the TikTok downloader always
takes the first link (download/route.ts lines 114-116): with links
`[{sd, urlA}, {hd, urlB}]` it resolves `urlA`, not the `hd` link `urlB`. -/
theorem claim_C6_cex :
    data6.links = some [{ quality := "sd", link := "urlA" },
                        { quality := "hd", link := "urlB" }]
    ∧ List.find? (fun x => x.quality == "hd")
        [({ quality := "sd", link := "urlA" } : RapidLink),
         { quality := "hd", link := "urlB" }] =
        some { quality := "hd", link := "urlB" }
    ∧ downloadTikTokLink data6 = .ok "urlA"
    ∧ ("urlA" : String) ≠ "urlB" := by
  refine ⟨by decide, by decide, by decide, by decide⟩

/-- C6 (amended): of the three aggregation-API downloaders only Facebook
prefers the `hd`-tagged link; TikTok and Instagram always pick the first
link of the list.  Each fails with the `"No video link found from
RapidAPI"` error exactly when the chosen link is the empty string — that
is, when the list is empty or absent, or the selected pair's `link` field
is itself the empty string. -/
theorem claim_C6 (data : RapidData) :
    (∀ l ls, data.links = some (l :: ls) → l.link ≠ "" →
      downloadTikTokLink data = .ok l.link ∧ downloadInstagramLink data = .ok l.link)
    ∧ (∀ l ls h, data.links = some (l :: ls) →
        (l :: ls).find? (fun x => x.quality == "hd") = some h → h.link ≠ "" →
        downloadFacebookLink data = .ok h.link)
    ∧ (∀ l ls, data.links = some (l :: ls) →
        (l :: ls).find? (fun x => x.quality == "hd") = none → l.link ≠ "" →
        downloadFacebookLink data = .ok l.link)
    ∧ (downloadTikTokLink data = .error "No video link found from RapidAPI"
        ↔ firstLinkUrl data = "")
    ∧ (downloadInstagramLink data = .error "No video link found from RapidAPI"
        ↔ firstLinkUrl data = "")
    ∧ (downloadFacebookLink data = .error "No video link found from RapidAPI"
        ↔ facebookVideoUrl data = "")
    ∧ (firstLinkUrl data = "" ↔
        data.links = none ∨ data.links = some []
        ∨ ∃ l ls, data.links = some (l :: ls) ∧ l.link = "") := by
  refine ⟨?_, ?_, ?_, ?_, ?_, ?_, ?_⟩
  · intro l ls hl hne
    have hfirst : firstLinkUrl data = l.link := by
      unfold firstLinkUrl
      rw [hl]
    constructor
    · unfold downloadTikTokLink
      rw [hfirst, if_neg hne]
    · unfold downloadInstagramLink
      rw [hfirst, if_neg hne]
  · intro l ls h hl hfind hne
    have hfb : facebookVideoUrl data = h.link := by
      simp only [facebookVideoUrl, hl, hfind]
    unfold downloadFacebookLink
    rw [hfb, if_neg hne]
  · intro l ls hl hfind hne
    have hfb : facebookVideoUrl data = l.link := by
      simp only [facebookVideoUrl, hl, hfind]
    unfold downloadFacebookLink
    rw [hfb, if_neg hne]
  · unfold downloadTikTokLink
    by_cases he : firstLinkUrl data = ""
    · rw [if_pos he]
      simp [he]
    · rw [if_neg he]
      simp [he]
  · unfold downloadInstagramLink
    by_cases he : firstLinkUrl data = ""
    · rw [if_pos he]
      simp [he]
    · rw [if_neg he]
      simp [he]
  · unfold downloadFacebookLink
    by_cases he : facebookVideoUrl data = ""
    · rw [if_pos he]
      simp [he]
    · rw [if_neg he]
      simp [he]
  · unfold firstLinkUrl
    cases hl : data.links with
    | none => simp
    | some ll =>
      cases ll with
      | nil => simp
      | cons l ls =>
        constructor
        · intro he
          exact Or.inr (Or.inr ⟨l, ls, rfl, he⟩)
        · rintro (h | h | ⟨l2, ls2, he, hlink⟩)
          · exact absurd h (by simp)
          · exact absurd h (by simp)
          · injection he with he2
            injection he2 with he3 he4
            show l.link = ""
            rw [he3]
            exact hlink

theorem claim_C6_witness :
    downloadTikTokLink data6 = .ok "urlA" ∧ downloadFacebookLink data6b = .ok "urlB" := by
  constructor
  · exact ((claim_C6 data6).1 { quality := "sd", link := "urlA" }
      [{ quality := "hd", link := "urlB" }] (by decide) (by decide)).1
  · exact (claim_C6 data6b).2.1 { quality := "hd", link := "urlB" }
      [{ quality := "sd", link := "urlA" }] { quality := "hd", link := "urlB" }
      (by decide) (by decide) (by decide)

theorem except_bind_ok {e a b : Type} (x : a) (f : a → Except e b) :
    (Except.ok x >>= f) = f x := rfl

theorem except_bind_error {e a b : Type} (s : e) (f : a → Except e b) :
    ((Except.error s : Except e a) >>= f) = Except.error s := rfl

theorem downloadTikTok_upstream_fail (env : DownloadEnv)
    (h : env.upstream.ok = false) :
    downloadTikTok env = .error "Failed to download TikTok video via RapidAPI" := by
  unfold downloadTikTok downloadTikTokRes
  cases hf : fetchFromRapidAPI env.envKey env.rapidNet with
  | error e => simp [except_bind_error]
  | ok data =>
    cases hl : downloadTikTokLink data with
    | error e => simp [except_bind_ok, except_bind_error, hl]
    | ok u => simp [except_bind_ok, except_bind_error, hl, streamVideo, h]

theorem downloadInstagram_upstream_fail (env : DownloadEnv)
    (h : env.upstream.ok = false) :
    downloadInstagram env = .error "Failed to download Instagram video via RapidAPI" := by
  unfold downloadInstagram downloadInstagramRes
  cases hf : fetchFromRapidAPI env.envKey env.rapidNet with
  | error e => simp [except_bind_error]
  | ok data =>
    cases hl : downloadInstagramLink data with
    | error e => simp [except_bind_ok, except_bind_error, hl]
    | ok u => simp [except_bind_ok, except_bind_error, hl, streamVideo, h]

theorem downloadFacebook_upstream_fail (env : DownloadEnv)
    (h : env.upstream.ok = false) :
    downloadFacebook env = .error "Failed to download Facebook video via RapidAPI" := by
  unfold downloadFacebook downloadFacebookRes
  cases hf : fetchFromRapidAPI env.envKey env.rapidNet with
  | error e => simp [except_bind_error]
  | ok data =>
    cases hl : downloadFacebookLink data with
    | error e => simp [except_bind_ok, except_bind_error, hl]
    | ok u => simp [except_bind_ok, except_bind_error, hl, streamVideo, h]

/-- C7: when the upstream media fetch returns a non-success status,
`streamVideo` throws before constructing any response (the error carries no
body bytes), and each aggregation-API download request ends in a 500 JSON
error response (which carries no body bytes either) — no response bytes are
emitted to the client. -/
theorem claim_C7 (up : UpstreamResponse) (fn url : String) (q : Option String)
    (env : DownloadEnv) (hok : up.ok = false) (henv : env.upstream = up) :
    streamVideo up fn = .error "Failed to download video stream"
    ∧ (detectPlatform url = "tiktok" →
        downloadPOST (some (url, q)) env =
          (.jsonError 500 "Failed to download TikTok video via RapidAPI", ["tiktok"]))
    ∧ (detectPlatform url = "instagram" →
        downloadPOST (some (url, q)) env =
          (.jsonError 500 "Failed to download Instagram video via RapidAPI", ["instagram"]))
    ∧ (detectPlatform url = "facebook" →
        downloadPOST (some (url, q)) env =
          (.jsonError 500 "Failed to download Facebook video via RapidAPI", ["facebook"])) := by
  have hu : env.upstream.ok = false := by rw [henv]; exact hok
  refine ⟨by simp [streamVideo, hok], ?_, ?_, ?_⟩
  · intro hd
    simp [downloadPOST, hd, downloadTikTok_upstream_fail env hu, wrapDownload]
  · intro hd
    simp [downloadPOST, hd, downloadInstagram_upstream_fail env hu, wrapDownload]
  · intro hd
    simp [downloadPOST, hd, downloadFacebook_upstream_fail env hu, wrapDownload]

theorem claim_C7_witness :
    streamVideo upFail0 "tiktok_video.mp4" = .error "Failed to download video stream"
    ∧ downloadPOST (some ("https://vm.tiktok.com/x", none)) envD0 =
        (.jsonError 500 "Failed to download TikTok video via RapidAPI", ["tiktok"]) :=
  ⟨(claim_C7 upFail0 "tiktok_video.mp4" "https://vm.tiktok.com/x" none envD0
      (by decide) (by decide)).1,
   (claim_C7 upFail0 "tiktok_video.mp4" "https://vm.tiktok.com/x" none envD0
      (by decide) (by decide)).2.1 (by decide)⟩

/-- C8: with `RAPIDAPI_KEY` absent from the environment, the
`"RAPIDAPI_KEY is not configured"` branch is never reached — the constant
falls back to the hard-coded placeholder key, so every aggregation fetch
proceeds to the network call (or its ordinary non-ok error).  This
contradicts the claim that a missing key surfaces a configuration error
when the code path is exercised. -/
theorem claim_C8 (net : RapidNet) :
    rapidApiKey none = defaultRapidApiKey
    ∧ fetchFromRapidAPI none net =
        (if net.ok then .ok net.data
         else .error ("RapidAPI error: " ++ net.statusText)) := by
  constructor
  · rfl
  · unfold fetchFromRapidAPI
    rw [if_neg (by decide)]

theorem clientTrace_enum (tr : List VStatus) (h : ClientTrace tr) :
    tr = [VStatus.pending, VStatus.analyzing, VStatus.ready]
    ∨ tr = [VStatus.pending, VStatus.analyzing, VStatus.error]
    ∨ tr = [VStatus.pending, VStatus.analyzing, VStatus.ready,
            VStatus.downloading, VStatus.completed]
    ∨ tr = [VStatus.pending, VStatus.analyzing, VStatus.ready,
            VStatus.downloading, VStatus.error] := by
  induction h with
  | analyzed b =>
    cases b with
    | false => exact Or.inr (Or.inl rfl)
    | true => exact Or.inl rfl
  | downloaded b t ht hl ih =>
    rcases ih with rfl | rfl | rfl | rfl
    · cases b with
      | false => exact Or.inr (Or.inr (Or.inr rfl))
      | true => exact Or.inr (Or.inr (Or.inl rfl))
    · exact absurd hl (by decide)
    · exact absurd hl (by decide)
    · exact absurd hl (by decide)

/-- C9: every status history a queued video can go through at the client
boundary starts at pending and only follows the transitions
pending → analyzing → (ready or error) and ready → downloading →
(completed or error); in particular a video reaches downloading only after
analyzing, and once at downloading it never returns to analyzing. -/
theorem claim_C9 (tr : List VStatus) (h : ClientTrace tr) :
    chainOK tr = true
    ∧ tr.head? = some VStatus.pending
    ∧ (VStatus.downloading ∈ tr →
        idxOf VStatus.analyzing tr < idxOf VStatus.downloading tr
        ∧ VStatus.analyzing ∉ tr.drop (idxOf VStatus.downloading tr)) := by
  rcases clientTrace_enum tr h with rfl | rfl | rfl | rfl
  · decide
  · decide
  · decide
  · decide

theorem claim_C9_witness :
    chainOK ([VStatus.pending, VStatus.analyzing, VStatus.ready] ++ downloadTrace true) = true
    ∧ ([VStatus.pending, VStatus.analyzing, VStatus.ready] ++ downloadTrace true).head?
        = some VStatus.pending
    ∧ (VStatus.downloading ∈ [VStatus.pending, VStatus.analyzing, VStatus.ready] ++ downloadTrace true →
        idxOf VStatus.analyzing ([VStatus.pending, VStatus.analyzing, VStatus.ready] ++ downloadTrace true)
          < idxOf VStatus.downloading ([VStatus.pending, VStatus.analyzing, VStatus.ready] ++ downloadTrace true)
        ∧ VStatus.analyzing ∉
            ([VStatus.pending, VStatus.analyzing, VStatus.ready] ++ downloadTrace true).drop
              (idxOf VStatus.downloading ([VStatus.pending, VStatus.analyzing, VStatus.ready] ++ downloadTrace true))) :=
  claim_C9 ([VStatus.pending, VStatus.analyzing, VStatus.ready] ++ downloadTrace true)
    (ClientTrace.downloaded true [VStatus.pending, VStatus.analyzing, VStatus.ready]
      (ClientTrace.analyzed true) (by decide))
